import Mathlib

/-!
Verification of `lib/mqtt_sender.py` (class `MQTTSender`).

The connection-readiness check (`test_connection`) is modelled as a pure
function producing the list of observable events of one run, together with a
flag saying whether the method returned normally (`true`) or the process was
terminated by `exit(-1)` (`false`).  The liveness predicate
`self.client.is_connected()` is modelled as a function `conn : Nat → Bool` of
the number of one-second sleeps elapsed since `loop_start` (the Python loop
sleeps one second, then queries; so the query of iteration `second` happens
at elapsed time `second + 1`).

The publish fan-out (`publish` / `_publish`) is modelled with the underlying
transport `self.client.publish` as a fallible function; a raised Python
exception is an `Except.error` that aborts the remaining iterations, exactly
as an uncaught exception leaves the `for` loop.
-/

/-- Observable events of one run of `MQTTSender.test_connection`. -/
inductive Event where
  | loopStart : Event
  | sleep : Event
  | pollLoop : Nat → Bool → Event
  | debugLog : Nat → Event
  | finalCheck : Nat → Bool → Event
  | criticalLog : Event
  | exitCall : Int → Event
  | loopStopForce : Event
deriving DecidableEq, Repr

namespace Event

/-- Recognizer for the `time.sleep(1)` event. -/
def isSleep : Event → Bool
  | Event.sleep => true
  | _ => false

/-- Recognizer for an `is_connected()` query made inside the `for` loop. -/
def isPoll : Event → Bool
  | Event.pollLoop _ _ => true
  | _ => false

/-- Recognizer for the `logging.debug` event. -/
def isDebug : Event → Bool
  | Event.debugLog _ => true
  | _ => false

/-- Events that the body of the `for` loop can emit. -/
def isLoopBody (e : Event) : Bool :=
  isSleep e || isPoll e || isDebug e

end Event

/-- Number of `time.sleep(1)` calls in a trace. -/
def sleepCount (l : List Event) : Nat := l.countP Event.isSleep

/-- Number of in-loop `is_connected()` queries in a trace. -/
def pollCount (l : List Event) : Nat := l.countP Event.isPoll

namespace MQTTSender

/-- Model of the `for second in range(bound)` loop of `test_connection`:
`second` is the loop variable (also the number of sleeps already done), `rem`
the number of iterations left.  Each iteration sleeps one second, then
queries `is_connected()`; on `true` it logs `second` at debug level and
breaks.  Returns the emitted events and the number of seconds elapsed when
the loop ends. -/
def forLoop (conn : Nat → Bool) : Nat → Nat → List Event × Nat
  | second, 0 => ([], second)
  | second, rem + 1 =>
    if conn (second + 1) then
      ([Event.sleep, Event.pollLoop (second + 1) true, Event.debugLog second],
       second + 1)
    else
      let r := forLoop conn (second + 1) rem
      (Event.sleep :: Event.pollLoop (second + 1) false :: r.1, r.2)

/-- Model of the loop bound `max(1, environment.get('MQTT_CLIENT_CONNECTION_TIMEOUT_SECONDS'))`. -/
def effectiveTimeout (timeout : Int) : Int := max 1 timeout

/-- Model of `MQTTSender.test_connection`: starts the loop, runs the
sleep-and-poll `for` loop over `range(max(1, timeout))`, then re-queries
`is_connected()` for timeout detection; on failure it logs critically and
calls `exit(-1)` (so `loop_stop` is not reached), on success it stops the
loop forcefully and returns.  The second component is `true` iff the method
returned normally. -/
def test_connection (timeout : Int) (conn : Nat → Bool) : List Event × Bool :=
  let bound := (effectiveTimeout timeout).toNat
  let r := forLoop conn 0 bound
  if conn r.2 then
    (Event.loopStart :: r.1 ++ [Event.finalCheck r.2 true, Event.loopStopForce],
     true)
  else
    (Event.loopStart :: r.1 ++
       [Event.finalCheck r.2 false, Event.criticalLog, Event.exitCall (-1)],
     false)

end MQTTSender

/-- If `is_connected()` is never true, the loop runs all `rem` iterations:
`rem` sleeps, `rem` polls, no debug log, and the elapsed time grows by `rem`;
every emitted event is a loop-body event. -/
theorem forLoop_never (conn : Nat → Bool) (h : ∀ j, conn j = false) :
    ∀ rem second,
      (MQTTSender.forLoop conn second rem).2 = second + rem ∧
      sleepCount (MQTTSender.forLoop conn second rem).1 = rem ∧
      pollCount (MQTTSender.forLoop conn second rem).1 = rem ∧
      (∀ e ∈ (MQTTSender.forLoop conn second rem).1, Event.isLoopBody e = true) := by
  intro rem
  induction rem with
  | zero => intro second; simp [MQTTSender.forLoop, sleepCount, pollCount]
  | succ n ih =>
    intro second
    have hc := h (second + 1)
    obtain ⟨ih1, ih2, ih3, ih4⟩ := ih (second + 1)
    simp only [MQTTSender.forLoop, hc, if_neg, Bool.false_eq_true, ite_false]
    refine ⟨by rw [ih1]; omega, ?_, ?_, ?_⟩
    · simp [sleepCount, List.countP_cons, Event.isSleep] at ih2 ⊢
      omega
    · simp [pollCount, List.countP_cons, Event.isPoll] at ih3 ⊢
      omega
    · intro e he
      simp only [List.mem_cons] at he
      rcases he with rfl | rfl | he
      · rfl
      · rfl
      · exact ih4 e he

/-- If the first true `is_connected()` poll is at elapsed second `k`, the
loop breaks there: `k - second` sleeps and polls, the debug log reports
`k - 1` (the loop index, one less than the elapsed seconds), the elapsed
time at the break is `k`, and every emitted event is a loop-body event. -/
theorem forLoop_first (conn : Nat → Bool) (k : Nat) (hk : conn k = true)
    (hb : ∀ j, j < k → conn j = false) :
    ∀ rem second, second < k → k ≤ second + rem →
      (MQTTSender.forLoop conn second rem).2 = k ∧
      sleepCount (MQTTSender.forLoop conn second rem).1 = k - second ∧
      pollCount (MQTTSender.forLoop conn second rem).1 = k - second ∧
      Event.debugLog (k - 1) ∈ (MQTTSender.forLoop conn second rem).1 ∧
      (∀ m, Event.debugLog m ∈ (MQTTSender.forLoop conn second rem).1 → m = k - 1) ∧
      (∀ e ∈ (MQTTSender.forLoop conn second rem).1, Event.isLoopBody e = true) := by
  intro rem
  induction rem with
  | zero => intro second h1 h2; omega
  | succ n ih =>
    intro second h1 h2
    by_cases hek : k = second + 1
    · subst hek
      simp only [MQTTSender.forLoop, hk, ite_true]
      refine ⟨by simp, ?_, ?_, ?_, ?_, ?_⟩
      · simp [sleepCount, List.countP_cons, Event.isSleep]
      · simp [pollCount, List.countP_cons, Event.isPoll]
      · simp
      · intro m hm; simp at hm; omega
      · intro e he
        simp only [List.mem_cons] at he
        rcases he with rfl | rfl | rfl | he
        · rfl
        · rfl
        · rfl
        · simp at he
    · have hlt : second + 1 < k := by omega
      have hc : conn (second + 1) = false := hb _ hlt
      obtain ⟨ih1, ih2, ih3, ih4, ih5, ih6⟩ := ih (second + 1) hlt (by omega)
      simp only [MQTTSender.forLoop, hc, Bool.false_eq_true, ite_false]
      refine ⟨ih1, ?_, ?_, ?_, ?_, ?_⟩
      · simp [sleepCount, List.countP_cons, Event.isSleep] at ih2 ⊢
        omega
      · simp [pollCount, List.countP_cons, Event.isPoll] at ih3 ⊢
        omega
      · simp only [List.mem_cons]
        exact Or.inr (Or.inr ih4)
      · intro m hm
        simp only [List.mem_cons] at hm
        rcases hm with hm | hm | hm
        · exact absurd hm (by simp)
        · exact absurd hm (by simp)
        · exact ih5 m hm
      · intro e he
        simp only [List.mem_cons] at he
        rcases he with rfl | rfl | he
        · rfl
        · rfl
        · exact ih6 e he

/-- Helper: the last element of a list extended by two elements. -/
theorem getLast?_concatTwo {α : Type} (l : List α) (a b : α) :
    (l ++ [a, b]).getLast? = some b := by
  have h : l ++ [a, b] = (l ++ [a]) ++ [b] := by simp
  rw [h, List.getLast?_concat]

/-- Helper: a run of `test_connection` that returns normally saw
`is_connected()` come back true at least once. -/
theorem test_connection_success_connected (t : Int) (conn : Nat → Bool)
    (h : (MQTTSender.test_connection t conn).2 = true) :
    ∃ k, conn k = true := by
  cases hc : conn (MQTTSender.forLoop conn 0 (MQTTSender.effectiveTimeout t).toNat).2 with
  | true => exact ⟨_, hc⟩
  | false => simp [MQTTSender.test_connection, hc] at h

/-- C2: if `is_connected()` never becomes true and the configured timeout `t`
is positive, `test_connection` performs exactly `t` one-second sleeps, then
logs at critical severity and calls `exit(-1)` (a non-zero exit status), and
the method does not return normally. -/
theorem C2_timeout_consumes_full_timeout (t : Int) (conn : Nat → Bool)
    (ht : 0 < t) (hc : ∀ j, conn j = false) :
    sleepCount (MQTTSender.test_connection t conn).1 = t.toNat ∧
    Event.criticalLog ∈ (MQTTSender.test_connection t conn).1 ∧
    (∃ c, Event.exitCall c ∈ (MQTTSender.test_connection t conn).1 ∧ c ≠ 0) ∧
    (MQTTSender.test_connection t conn).2 = false := by
  obtain ⟨h1, h2, _, _⟩ :=
    forLoop_never conn hc (MQTTSender.effectiveTimeout t).toNat 0
  have hcf := hc (MQTTSender.forLoop conn 0 (MQTTSender.effectiveTimeout t).toNat).2
  have hnat : (MQTTSender.effectiveTimeout t).toNat = t.toNat := by
    simp only [MQTTSender.effectiveTimeout]
    omega
  simp only [MQTTSender.test_connection, hcf, Bool.false_eq_true, ite_false]
  refine ⟨?_, ?_, ⟨-1, ?_, by decide⟩, trivial⟩
  · simp only [sleepCount, List.countP_cons, List.countP_append] at h2 ⊢
    simp [Event.isSleep] at h2 ⊢
    rw [← hnat]
    simpa using h2
  · simp
  · simp

/-- C2 witness: with timeout 2 and a connection that never comes up, the run
sleeps twice, logs critically, exits non-zero and does not return. -/
theorem C2_timeout_consumes_full_timeout_witness :
    (0 : Int) < 2 ∧
    (sleepCount (MQTTSender.test_connection 2 (fun _ => false)).1 = (2 : Int).toNat ∧
     Event.criticalLog ∈ (MQTTSender.test_connection 2 (fun _ => false)).1 ∧
     (∃ c, Event.exitCall c ∈ (MQTTSender.test_connection 2 (fun _ => false)).1 ∧ c ≠ 0) ∧
     (MQTTSender.test_connection 2 (fun _ => false)).2 = false) :=
  ⟨by decide, C2_timeout_consumes_full_timeout 2 (fun _ => false) (by decide) (fun _ => rfl)⟩

/-- C3: for every configured timeout value `t ≤ 0` the effective wait bound
`max(1, t)` is exactly 1, and the readiness check runs exactly one poll
iteration (one sleep, one in-loop liveness query), whatever the connection
does. -/
theorem C3_nonpositive_timeout_coerced_to_one (t : Int) (conn : Nat → Bool)
    (ht : t ≤ 0) :
    MQTTSender.effectiveTimeout t = 1 ∧
    sleepCount (MQTTSender.test_connection t conn).1 = 1 ∧
    pollCount (MQTTSender.test_connection t conn).1 = 1 := by
  have heff : MQTTSender.effectiveTimeout t = 1 := by
    simp only [MQTTSender.effectiveTimeout]
    omega
  refine ⟨heff, ?_⟩
  simp only [MQTTSender.test_connection, heff]
  norm_num
  cases hc1 : conn 1 <;>
    simp [MQTTSender.forLoop, hc1, sleepCount, pollCount, List.countP_cons,
      List.countP_append, Event.isSleep, Event.isPoll]

/-- C3 witness: with configured timeout `-3` the effective bound is 1 and the
run makes exactly one sleep and one poll. -/
theorem C3_nonpositive_timeout_coerced_to_one_witness :
    (-3 : Int) ≤ 0 ∧
    (MQTTSender.effectiveTimeout (-3) = 1 ∧
     sleepCount (MQTTSender.test_connection (-3) (fun _ => true)).1 = 1 ∧
     pollCount (MQTTSender.test_connection (-3) (fun _ => true)).1 = 1) :=
  ⟨by decide, C3_nonpositive_timeout_coerced_to_one (-3) (fun _ => true) (by decide)⟩

/-- C4: if the liveness predicate is first observed true at elapsed second
`k` with `1 ≤ k ≤ t`, the readiness check breaks out after exactly `k`
one-second sleeps (and `k` in-loop polls), returns normally, and never calls
`exit`. -/
theorem C4_short_circuit (t : Int) (conn : Nat → Bool) (k : Nat)
    (hk1 : 1 ≤ k) (hk2 : (k : Int) ≤ t) (hk : conn k = true)
    (hb : ∀ j, j < k → conn j = false) :
    sleepCount (MQTTSender.test_connection t conn).1 = k ∧
    pollCount (MQTTSender.test_connection t conn).1 = k ∧
    (MQTTSender.test_connection t conn).2 = true ∧
    (∀ c, Event.exitCall c ∉ (MQTTSender.test_connection t conn).1) := by
  have hkb : k ≤ (MQTTSender.effectiveTimeout t).toNat := by
    simp only [MQTTSender.effectiveTimeout]
    omega
  obtain ⟨h1, h2, h3, _, _, h6⟩ :=
    forLoop_first conn k hk hb (MQTTSender.effectiveTimeout t).toNat 0
      (by omega) (by omega)
  have hcf : conn (MQTTSender.forLoop conn 0 (MQTTSender.effectiveTimeout t).toNat).2 = true := by
    rw [h1]; exact hk
  simp only [MQTTSender.test_connection, hcf, ite_true]
  refine ⟨?_, ?_, trivial, ?_⟩
  · simp only [sleepCount, List.countP_cons, List.countP_append] at h2 ⊢
    simp [Event.isSleep] at h2 ⊢
    simpa using h2
  · simp only [pollCount, List.countP_cons, List.countP_append] at h3 ⊢
    simp [Event.isPoll] at h3 ⊢
    simpa using h3
  · intro c hmem
    rcases List.mem_cons.mp hmem with h | hmem2
    · exact absurd h (by simp)
    rcases List.mem_append.mp hmem2 with h | h
    · have hb2 := h6 _ h
      simp [Event.isLoopBody, Event.isSleep, Event.isPoll, Event.isDebug] at hb2
    · simp at h

/-- C4 witness: timeout 5, connection first observed up at second 2: two
sleeps, two polls, normal return, no exit call. -/
theorem C4_short_circuit_witness :
    (1 ≤ 2 ∧ ((2 : Nat) : Int) ≤ 5 ∧ (fun j => decide (2 ≤ j)) 2 = true) ∧
    (sleepCount (MQTTSender.test_connection 5 (fun j => decide (2 ≤ j))).1 = 2 ∧
     pollCount (MQTTSender.test_connection 5 (fun j => decide (2 ≤ j))).1 = 2 ∧
     (MQTTSender.test_connection 5 (fun j => decide (2 ≤ j))).2 = true ∧
     (∀ c, Event.exitCall c ∉ (MQTTSender.test_connection 5 (fun j => decide (2 ≤ j))).1)) :=
  ⟨⟨by decide, by decide, by decide⟩,
   C4_short_circuit 5 (fun j => decide (2 ≤ j)) 2 (by decide) (by decide)
     (by decide) (by decide)⟩

/-- C7 (amended): whenever `test_connection` returns normally (readiness
confirmed), its very last action is `loop_stop(force=True)`; the timeout
path never reaches `loop_stop` because `exit(-1)` runs first. -/
theorem C7_loop_stopped_on_success (t : Int) (conn : Nat → Bool)
    (h : (MQTTSender.test_connection t conn).2 = true) :
    (MQTTSender.test_connection t conn).1.getLast? = some Event.loopStopForce := by
  cases hc : conn (MQTTSender.forLoop conn 0 (MQTTSender.effectiveTimeout t).toNat).2 with
  | false => simp [MQTTSender.test_connection, hc] at h
  | true =>
    simp only [MQTTSender.test_connection, hc, ite_true]
    exact getLast?_concatTwo _ _ _

/-- C7 witness: with timeout 1 and an always-live connection the check
returns normally and its last event is the forced loop stop. -/
theorem C7_loop_stopped_on_success_witness :
    (MQTTSender.test_connection 1 (fun _ => true)).2 = true ∧
    (MQTTSender.test_connection 1 (fun _ => true)).1.getLast? =
      some Event.loopStopForce :=
  ⟨by decide, C7_loop_stopped_on_success 1 (fun _ => true) (by decide)⟩

/-- C7 counterexample: on the timeout path (timeout 1, connection never up)
the run calls `exit(-1)` and `loop_stop(force=True)` is never executed, so
the loop is not stopped in every terminating run. -/
theorem C7_timeout_skips_loop_stop :
    Event.loopStopForce ∉ (MQTTSender.test_connection 1 (fun _ => false)).1 ∧
    Event.exitCall (-1) ∈ (MQTTSender.test_connection 1 (fun _ => false)).1 := by
  decide

/-- C9: with timeout 5 and the liveness predicate first true at elapsed
second 2, the successful run emits the debug log with value 1 (the loop
index), not 2: the logged number is one less than the elapsed seconds. -/
theorem C9_debug_log_reports_loop_index :
    Event.debugLog 1 ∈ (MQTTSender.test_connection 5 (fun j => decide (2 ≤ j))).1 ∧
    Event.debugLog 2 ∉ (MQTTSender.test_connection 5 (fun j => decide (2 ≤ j))).1 ∧
    (MQTTSender.test_connection 5 (fun j => decide (2 ≤ j))).2 = true := by
  decide

/-- C10: the readiness check sleeps one full second before its first
liveness query; if the connection is already live when `test_connection` is
entered, the run is exactly one sleep, one in-loop poll (at elapsed second
1, never at second 0), the debug log, the timeout-detection re-check, and
the forced loop stop, and it returns normally. -/
theorem C10_sleep_before_first_poll (t : Int) (conn : Nat → Bool)
    (h : ∀ j, conn j = true) :
    (MQTTSender.test_connection t conn).1 =
      [Event.loopStart, Event.sleep, Event.pollLoop 1 true, Event.debugLog 0,
       Event.finalCheck 1 true, Event.loopStopForce] ∧
    sleepCount (MQTTSender.test_connection t conn).1 = 1 ∧
    pollCount (MQTTSender.test_connection t conn).1 = 1 ∧
    (MQTTSender.test_connection t conn).2 = true := by
  obtain ⟨m, hm⟩ : ∃ m, (MQTTSender.effectiveTimeout t).toNat = m + 1 := by
    refine ⟨(MQTTSender.effectiveTimeout t).toNat - 1, ?_⟩
    simp only [MQTTSender.effectiveTimeout]
    omega
  simp only [MQTTSender.test_connection, hm, MQTTSender.forLoop, h 1, ite_true, h]
  refine ⟨rfl, ?_, ?_, trivial⟩
  · simp [MQTTSender.test_connection, hm, MQTTSender.forLoop, h 1, sleepCount,
      List.countP_cons, List.countP_append, Event.isSleep]
  · simp [MQTTSender.test_connection, hm, MQTTSender.forLoop, h 1, pollCount,
      List.countP_cons, List.countP_append, Event.isPoll]

/-- C10 witness: timeout 4, connection already live: the trace is one sleep
then one poll at second 1, and the run returns normally. -/
theorem C10_sleep_before_first_poll_witness :
    ((fun _ : Nat => true) 0 = true) ∧
    ((MQTTSender.test_connection 4 (fun _ => true)).1 =
       [Event.loopStart, Event.sleep, Event.pollLoop 1 true, Event.debugLog 0,
        Event.finalCheck 1 true, Event.loopStopForce] ∧
     sleepCount (MQTTSender.test_connection 4 (fun _ => true)).1 = 1 ∧
     pollCount (MQTTSender.test_connection 4 (fun _ => true)).1 = 1 ∧
     (MQTTSender.test_connection 4 (fun _ => true)).2 = true) :=
  ⟨rfl, C10_sleep_before_first_poll 4 (fun _ => true) (fun _ => rfl)⟩

/-- Arguments of one transport-level call
`self.client.publish(topic, payload, qos, retain, properties)`.  The payload
type `α` and the properties type `π` are opaque to the sender. -/
structure PubCall (α π : Type) where
  topic : String
  payload : α
  qos : Int
  retain : Bool
  properties : Option π
deriving Repr

namespace MQTTSender

/-- Model of `MQTTSender._publish`: issues exactly one call to
`self.client.publish(topic, payload, qos, retain, properties)` and
propagates its outcome; a raised exception is `Except.error`. -/
def publishOne {α π ε : Type} (transport : PubCall α π → Except ε Unit)
    (topic : String) (payload : α) (qos : Int) (retain : Bool)
    (properties : Option π) : PubCall α π × Except ε Unit :=
  let c : PubCall α π := ⟨topic, payload, qos, retain, properties⟩
  (c, transport c)

/-- Model of `MQTTSender.publish`: iterates `self.topics` in stored order
and calls `_publish` once per topic with the same payload, qos, retain and
properties; an exception raised by the transport leaves the `for` loop
uncaught, so later topics are not attempted.  Returns the transport calls
actually issued, in order, together with the propagated error if any. -/
def publish {α π ε : Type} (transport : PubCall α π → Except ε Unit)
    (topics : List String) (payload : α) (qos : Int) (retain : Bool)
    (properties : Option π) : List (PubCall α π) × Option ε :=
  match topics with
  | [] => ([], none)
  | t :: ts =>
    let r := publishOne transport t payload qos retain properties
    match r.2 with
    | Except.ok _ =>
      let rest := publish transport ts payload qos retain properties
      (r.1 :: rest.1, rest.2)
    | Except.error e => ([r.1], some e)

end MQTTSender

/-- C1: when the transport raises nothing, `publish` on the topic list
`["a", "b", "c"]` issues exactly three transport calls, one per topic in
stored order, each with the identical payload, qos, retain and properties. -/
theorem C1_publish_three_topics {α π ε : Type}
    (transport : PubCall α π → Except ε Unit) (payload : α) (qos : Int)
    (retain : Bool) (properties : Option π)
    (h : ∀ c, transport c = Except.ok ()) :
    MQTTSender.publish transport ["a", "b", "c"] payload qos retain properties =
      ([⟨"a", payload, qos, retain, properties⟩,
        ⟨"b", payload, qos, retain, properties⟩,
        ⟨"c", payload, qos, retain, properties⟩], none) := by
  simp [MQTTSender.publish, MQTTSender.publishOne, h]

/-- C1 witness: a concrete always-succeeding transport and concrete
arguments produce exactly the three calls in order. -/
theorem C1_publish_three_topics_witness :
    (∀ c : PubCall Nat Unit,
       (fun _ : PubCall Nat Unit => (Except.ok () : Except Unit Unit)) c =
         Except.ok ()) ∧
    MQTTSender.publish
        (fun _ : PubCall Nat Unit => (Except.ok () : Except Unit Unit))
        ["a", "b", "c"] 7 0 false none =
      ([⟨"a", 7, 0, false, none⟩, ⟨"b", 7, 0, false, none⟩,
        ⟨"c", 7, 0, false, none⟩], none) :=
  ⟨fun _ => rfl,
   C1_publish_three_topics (fun _ => Except.ok ()) 7 0 false none fun _ => rfl⟩

/-- C5: `publish` with an empty topic list issues zero transport calls and
returns normally, for every payload, qos, retain and properties and every
transport. -/
theorem C5_publish_empty_noop {α π ε : Type}
    (transport : PubCall α π → Except ε Unit) (payload : α) (qos : Int)
    (retain : Bool) (properties : Option π) :
    MQTTSender.publish transport [] payload qos retain properties =
      ([], none) :=
  rfl

/-- C6: if the transport call for topic "b" raises while the call for "a"
succeeds, the fan-out over `["a", "b", "c"]` issues exactly the calls for
"a" and "b" (so "a" was already sent), never attempts "c", and propagates
the error to the caller. -/
theorem C6_publish_fail_stop {α π ε : Type}
    (transport : PubCall α π → Except ε Unit) (payload : α) (qos : Int)
    (retain : Bool) (properties : Option π) (e : ε)
    (ha : transport ⟨"a", payload, qos, retain, properties⟩ = Except.ok ())
    (hb : transport ⟨"b", payload, qos, retain, properties⟩ = Except.error e) :
    MQTTSender.publish transport ["a", "b", "c"] payload qos retain properties =
      ([⟨"a", payload, qos, retain, properties⟩,
        ⟨"b", payload, qos, retain, properties⟩], some e) ∧
    ∀ c ∈ (MQTTSender.publish transport ["a", "b", "c"] payload qos retain
        properties).1, PubCall.topic c ≠ "c" := by
  have hmain :
      MQTTSender.publish transport ["a", "b", "c"] payload qos retain properties =
        ([⟨"a", payload, qos, retain, properties⟩,
          ⟨"b", payload, qos, retain, properties⟩], some e) := by
    simp [MQTTSender.publish, MQTTSender.publishOne, ha, hb]
  refine ⟨hmain, ?_⟩
  intro c hc
  have h1 : (MQTTSender.publish transport ["a", "b", "c"] payload qos retain
      properties).1 =
      [⟨"a", payload, qos, retain, properties⟩,
       ⟨"b", payload, qos, retain, properties⟩] := by
    rw [hmain]
  rw [h1] at hc
  rcases List.mem_cons.mp hc with rfl | hc2
  · exact fun hcc => by simp [PubCall.topic] at hcc
  rcases List.mem_cons.mp hc2 with rfl | hc3
  · exact fun hcc => by simp [PubCall.topic] at hcc
  · simp at hc3

/-- C6 witness: a concrete transport that raises exactly on topic "b"
attempts "a" then "b", never "c", and surfaces the error. -/
theorem C6_publish_fail_stop_witness :
    ((fun c : PubCall Nat Unit =>
        if c.topic = "b" then (Except.error 9 : Except Nat Unit)
        else Except.ok ()) ⟨"a", 5, 1, true, none⟩ = Except.ok () ∧
     (fun c : PubCall Nat Unit =>
        if c.topic = "b" then (Except.error 9 : Except Nat Unit)
        else Except.ok ()) ⟨"b", 5, 1, true, none⟩ = Except.error 9) ∧
    (MQTTSender.publish
        (fun c : PubCall Nat Unit =>
          if c.topic = "b" then (Except.error 9 : Except Nat Unit)
          else Except.ok ())
        ["a", "b", "c"] 5 1 true none =
      ([⟨"a", 5, 1, true, none⟩, ⟨"b", 5, 1, true, none⟩], some 9) ∧
     ∀ c ∈ (MQTTSender.publish
        (fun c : PubCall Nat Unit =>
          if c.topic = "b" then (Except.error 9 : Except Nat Unit)
          else Except.ok ())
        ["a", "b", "c"] 5 1 true none).1, PubCall.topic c ≠ "c") :=
  ⟨⟨rfl, rfl⟩,
   C6_publish_fail_stop
     (fun c : PubCall Nat Unit =>
       if c.topic = "b" then (Except.error 9 : Except Nat Unit)
       else Except.ok ())
     5 1 true none 9 rfl rfl⟩

/-- Configuration values read from the environment by `MQTTSender.__init__`
(`MQTT_SENDER_USERNAME`, `MQTT_SENDER_PASSWORD`, `MQTT_SENDER_HOSTNAME`,
`MQTT_SENDER_PORT`, `MQTT_SENDER_TOPICS`,
`MQTT_CLIENT_CONNECTION_TIMEOUT_SECONDS`). -/
structure Env where
  username : String
  password : String
  hostname : String
  port : Int
  topics : List String
  timeoutSeconds : Int

/-- Observable events of one run of `MQTTSender.__init__`. -/
inductive InitEvent where
  | connectEv : String → String → String → Int → InitEvent
  | tc : Event → InitEvent
  | onPublishSet : InitEvent
  | appendTopic : String → InitEvent
deriving DecidableEq, Repr

namespace MQTTSender

/-- Model of `MQTTSender.__init__`: after reading the environment it calls
the inherited `_connect`, then `test_connection` (whose events are embedded
with `InitEvent.tc` and which either returns normally or terminates the
process via `exit(-1)`), then registers the `on_publish` callback and
appends each configured topic to `self.topics` in order.  Returns the trace
and, when construction completes, the stored topic list; `none` means the
process exited inside `test_connection`, so no constructed object (and hence
no `publish` call on it) ever exists. -/
def init (env : Env) (conn : Nat → Bool) : List InitEvent × Option (List String) :=
  let t := test_connection env.timeoutSeconds conn
  let pre := InitEvent.connectEv env.username env.password env.hostname env.port ::
    t.1.map InitEvent.tc
  if t.2 then
    (pre ++ InitEvent.onPublishSet :: env.topics.map InitEvent.appendTopic,
     some env.topics)
  else
    (pre, none)

end MQTTSender

/-- C8: whenever construction completes (so a `publish` call on the object
is possible at all), the readiness check observed `is_connected()` true at
least once, and the construction trace splits into a prefix holding all the
readiness-check events and a suffix holding all the topic-list population
events: the connection was confirmed live strictly before any topic was
stored. -/
theorem C8_readiness_before_topics (env : Env) (conn : Nat → Bool)
    (h : (MQTTSender.init env conn).2.isSome = true) :
    (∃ k, conn k = true) ∧
    ∃ pre post,
      (MQTTSender.init env conn).1 = pre ++ post ∧
      (∀ e ∈ pre, ∀ s, e ≠ InitEvent.appendTopic s) ∧
      (∀ e ∈ post, ∀ ev, e ≠ InitEvent.tc ev) := by
  have hs : (MQTTSender.test_connection env.timeoutSeconds conn).2 = true := by
    cases ht : (MQTTSender.test_connection env.timeoutSeconds conn).2 with
    | true => rfl
    | false => simp [MQTTSender.init, ht] at h
  refine ⟨test_connection_success_connected _ _ hs, ?_⟩
  refine ⟨InitEvent.connectEv env.username env.password env.hostname env.port ::
      (MQTTSender.test_connection env.timeoutSeconds conn).1.map InitEvent.tc,
    InitEvent.onPublishSet :: env.topics.map InitEvent.appendTopic, ?_, ?_, ?_⟩
  · simp [MQTTSender.init, hs]
  · intro e he s
    rcases List.mem_cons.mp he with rfl | he2
    · simp
    · obtain ⟨ev, _, rfl⟩ := List.mem_map.mp he2
      simp
  · intro e he ev
    rcases List.mem_cons.mp he with rfl | he2
    · simp
    · obtain ⟨s2, _, rfl⟩ := List.mem_map.mp he2
      simp

/-- C8 witness: a concrete successful construction (timeout 5, connection
live, one topic) satisfies the confirmed-live-before-topics split. -/
theorem C8_readiness_before_topics_witness :
    ((MQTTSender.init ⟨"user", "pass", "host", 1883, ["sensors/temp"], 5⟩
        (fun _ => true)).2.isSome = true) ∧
    ((∃ k, (fun _ : Nat => true) k = true) ∧
     ∃ pre post,
       (MQTTSender.init ⟨"user", "pass", "host", 1883, ["sensors/temp"], 5⟩
           (fun _ => true)).1 = pre ++ post ∧
       (∀ e ∈ pre, ∀ s, e ≠ InitEvent.appendTopic s) ∧
       (∀ e ∈ post, ∀ ev, e ≠ InitEvent.tc ev)) :=
  ⟨by decide,
   C8_readiness_before_topics ⟨"user", "pass", "host", 1883, ["sensors/temp"], 5⟩
     (fun _ => true) (by decide)⟩
